import Mathlib

/-!
Shallow embedding of `src/service.py`, a Kodi subtitle addon for the
subt.is web API, together with theorems checking the natural-language
specification against it.

Modelling conventions:
* Python dictionaries decoded from JSON are modelled as structures with
  `Option` fields; `dict.get(k, d)` becomes `field.getD d`.
* JSON numbers (the `rating` field) are modelled as exact rationals `ℚ`;
  Python `int(x)` on a float is truncation toward zero, modelled by
  `pyInt`.
* Values interpolated into f-strings are carried in their rendered string
  form; an absent value renders as the string of Python `None`.
* Network I/O is modelled by oracle functions passed in explicitly: the
  transport maps a URL to a `TransportResult` and the JSON decoder maps a
  body to an optional decoded value.  Functions additionally return the
  list of URLs they requested and the list of (path, contents) files they
  wrote, so that absence of network calls and of file writes is statable.
-/

/-- `SUBTIS_API_BASE` from service.py line 26. -/
def SUBTIS_API_BASE : String := "https://api.subt.is/v1"

/-- Python `int(q)` on a real number: truncation toward zero. -/
def pyInt (q : ℚ) : ℤ := if 0 ≤ q then ⌊q⌋ else ⌈q⌉

/-- The rating normalization of service.py line 147:
`rating_5 = str(int(min(5, rating / 2)))`, before the `str`. -/
def rating5 (rating : ℚ) : ℤ := pyInt (min 5 (rating / 2))

/-- Uppercase hexadecimal digit, for percent-encoding. -/
def hexChar (n : Nat) : Char := if n < 10 then Char.ofNat (48 + n) else Char.ofNat (55 + n)

/-- Bytes `urllib.parse.quote` leaves unescaped with the default
`safe='/'`: ASCII letters, digits, `_ . - ~` and `/`. -/
def isQuoteSafe (b : Nat) : Bool :=
  (65 ≤ b && b ≤ 90) || (97 ≤ b && b ≤ 122) || (48 ≤ b && b ≤ 57) ||
  b == 45 || b == 46 || b == 95 || b == 126 || b == 47

/-- UTF-8 encoding of one character as a list of byte values. -/
def utf8Bytes (c : Char) : List Nat :=
  let v := c.toNat
  if v < 0x80 then [v]
  else if v < 0x800 then
    [0xC0 ||| (v >>> 6), 0x80 ||| (v &&& 0x3F)]
  else if v < 0x10000 then
    [0xE0 ||| (v >>> 12), 0x80 ||| ((v >>> 6) &&& 0x3F), 0x80 ||| (v &&& 0x3F)]
  else
    [0xF0 ||| (v >>> 18), 0x80 ||| ((v >>> 12) &&& 0x3F),
     0x80 ||| ((v >>> 6) &&& 0x3F), 0x80 ||| (v &&& 0x3F)]

/-- Percent-encode one byte as `urllib.parse.quote` does. -/
def quoteByte (b : Nat) : String :=
  if isQuoteSafe b then String.singleton (Char.ofNat b)
  else "%" ++ String.singleton (hexChar (b / 16)) ++ String.singleton (hexChar (b % 16))

/-- `urllib.parse.quote(s)` with the default safe characters (service.py
line 88). -/
def urlQuote (s : String) : String :=
  String.join ((s.data.flatMap utf8Bytes).map quoteByte)

/-- `s.startswith(p)` on strings, via the character list (kept
list-based so that concrete instances reduce in the kernel). -/
def strStartsWith (s p : String) : Bool :=
  decide (s.data.take p.data.length = p.data)

/-- `s.endswith(p)` on strings, via the character list. -/
def strEndsWith (s p : String) : Bool :=
  decide (s.data.drop (s.data.length - p.data.length) = p.data ∧
          p.data.length ≤ s.data.length)

/-- `os.path.join` for two POSIX path components (service.py line 214). -/
def ospath_join (a b : String) : String :=
  if strStartsWith b "/" then b
  else if a = "" || strEndsWith a "/" then a ++ b
  else a ++ "/" ++ b

/-- One record of the `results` array of the search response (spec §6:
`id`, `title_name`, `title_name_spa`, `year`, `rating`, `type`).  Every
field is optional, matching the `.get` accesses of service.py lines
119-124; `id` and `year` are carried in their rendered string form. -/
structure RawResult where
  id : Option String
  title_name : Option String
  title_name_spa : Option String
  year : Option String
  rating : Option ℚ
  type : Option String := none
deriving Repr, DecidableEq

/-- The decoded body of `GET /titles/search/{title}`: an object with
`total` and `results` (service.py lines 104-108). -/
structure SearchResponse where
  total : Option Int := none
  results : Option (List RawResult)
deriving Repr, DecidableEq

/-- A Kodi `xbmcgui.ListItem` as this addon uses it: constructor labels,
one art entry (`icon`), and two string properties. -/
structure ListItem where
  label : String
  label2 : String := ""
  icon : String := ""
  sync : String := ""
  hearing_imp : String := ""
deriving Repr, DecidableEq

/-- One element of `subtitles_list`: the tuple
`(url, listitem, False)` of service.py line 157. -/
structure SubtitleEntry where
  url : String
  listitem : ListItem
  isFolder : Bool
deriving Repr, DecidableEq

/-- Rendering of a possibly-absent string in a Python f-string:
`None` prints as `"None"`. -/
def pyShow (o : Option String) : String := o.getD "None"

/-- The display name of service.py line 134:
`display_name = title_name_spa if title_name_spa else title_name`,
where `title_name = result.get('title_name', 'Unknown')` and
`title_name_spa = result.get('title_name_spa', title_name)`. -/
def display_name (r : RawResult) : String :=
  let title_name := r.title_name.getD "Unknown"
  let title_name_spa := r.title_name_spa.getD title_name
  if title_name_spa ≠ "" then title_name_spa else title_name

/-- The loop body of service.py lines 116-157: one candidate record
mapped to one list entry. -/
def toEntry (scriptid : String) (r : RawResult) : SubtitleEntry :=
  let year := r.year.getD ""
  let rating := r.rating.getD 0
  let filename := display_name r ++ " (" ++ year ++ ")"
  let rating_5 := toString (rating5 rating)
  let url := "plugin://" ++ scriptid ++ "/?action=download&id=" ++ pyShow r.id
  { url := url
    listitem :=
      { label := "Spanish"
        label2 := filename
        icon := rating_5
        sync := "false"
        hearing_imp := "false" }
    isFolder := false }

/-- Outcome of one `urllib.request.urlopen` call, matching the except
clauses of `make_request` (service.py lines 52-60): a 2xx response whose
body decoded as UTF-8, an `HTTPError` (non-2xx status), a `URLError`
(network failure), or any other exception raised while requesting or
reading. -/
inductive TransportResult where
  | success (body : String)
  | httpError (code : Nat) (reason : String)
  | urlError (reason : String)
  | otherError (msg : String)
deriving Repr, DecidableEq

/-- `make_request(url)` of service.py lines 34-60, parameterized by the
transport oracle and by the JSON decoder (`json.loads`, whose failure on
a malformed body is an exception caught by the blanket except clause).
Also returns the list of URLs it attempted to open, so that absence of
network activity is statable. -/
def make_request (transport : String → TransportResult)
    (decode : String → Option α) (url : String) : Option α × List String :=
  match transport url with
  | .success body => (decode body, [url])
  | .httpError _ _ => (none, [url])
  | .urlError _ => (none, [url])
  | .otherError _ => (none, [url])

/-- The `item` dictionary built by `main` and read by `search_subtitles`
(service.py lines 253-266); `search_subtitles` only ever reads
`item.get('title', '')`, so `title` is optional. -/
structure Item where
  temp : Bool := false
  rar : Bool := false
  year : String := ""
  season : String := ""
  episode : String := ""
  tvshow : String := ""
  title : Option String := none
  file_original_path : String := ""
deriving Repr, DecidableEq

/-- The search URL of service.py line 92:
`f"{SUBTIS_API_BASE}/titles/search/{encoded_title}"`. -/
def search_url (title : String) : String :=
  SUBTIS_API_BASE ++ "/titles/search/" ++ urlQuote title

/-- `search_subtitles(item)` of service.py lines 63-162.  Returns the
`subtitles_list` together with the list of URLs requested.  The early
returns: blank title (line 83), falsy response (line 100: `None`, or the
falsy decoded values which under the typed model all lead to an empty
`results` and hence to the same empty output), and empty/absent
`results` array (line 111). -/
def search_subtitles (scriptid : String) (item : Item)
    (transport : String → TransportResult)
    (decode : String → Option SearchResponse) :
    List SubtitleEntry × List String :=
  let title := item.title.getD ""
  if title = "" then ([], [])
  else
    let response := make_request transport decode (search_url title)
    match response.1 with
    | none => ([], response.2)
    | some response_data =>
      let results := response_data.results.getD []
      if results = [] then ([], response.2)
      else (results.map (toEntry scriptid), response.2)

/-- `download_subtitle(subtitle_id)` of service.py lines 186-224,
parameterized by the raw transport oracle (`None` stands for any
exception raised by `urlopen`, `read` or UTF-8 decoding, all caught by
the blanket except at line 222).  Returns the list of paths returned to
the caller together with the list of `(path, contents)` pairs written to
disk; the body is fully in memory (`subtitle_content`) before the write
at line 217 starts. -/
def download_subtitle (temp : String) (subtitle_id : String)
    (transportRaw : String → Option String) :
    List String × List (String × String) :=
  let download_url := SUBTIS_API_BASE ++ "/subtitle/link/" ++ subtitle_id
  match transportRaw download_url with
  | some subtitle_content =>
      let subtitle_path := ospath_join temp ("subtis_" ++ subtitle_id ++ ".srt")
      ([subtitle_path], [(subtitle_path, subtitle_content)])
  | none => ([], [])

/-- The host playback state `main` queries for the search action
(service.py lines 253-266). -/
structure PlayerState where
  year : String := ""
  season : String := ""
  episode : String := ""
  tvshow : String := ""
  originalTitle : String := ""
  title : String := ""
  playingFile : String := ""
deriving Repr, DecidableEq

/-- One call `main` makes back into the host:
`xbmcplugin.addDirectoryItem` or `xbmcplugin.endOfDirectory`. -/
inductive HostCall where
  | addDirectoryItem (handle : Int) (url : String) (listitem : ListItem) (isFolder : Bool)
  | endOfDirectory (handle : Int)
deriving Repr, DecidableEq

/-- Whether a host call is the end-of-result-set signal. -/
def HostCall.isEnd : HostCall → Bool
  | .endOfDirectory _ => true
  | _ => false

/-- `main()` of service.py lines 238-322, with the host interactions
reified: `params` is the parsed query string, `player` the host playback
state, and the oracles model the network.  Returns the sequence of host
calls made and the files written.  Every branch falls through to
`xbmcplugin.endOfDirectory(int(sys.argv[1]))` at line 320. -/
def main' (scriptid : String) (temp : String) (handle : Int)
    (params : String → Option String) (player : PlayerState)
    (transport : String → TransportResult)
    (decode : String → Option SearchResponse)
    (transportRaw : String → Option String) :
    List HostCall × List (String × String) :=
  let action := params "action"
  let branch : List HostCall × List (String × String) :=
    if action = some "search" then
      let item : Item :=
        { temp := false
          rar := false
          year := player.year
          season := player.season
          episode := player.episode
          tvshow := player.tvshow
          title := some (if player.originalTitle = "" then player.title
                         else player.originalTitle)
          file_original_path := player.playingFile }
      let subtitles_list := (search_subtitles scriptid item transport decode).1
      (subtitles_list.map
        (fun s => HostCall.addDirectoryItem handle s.url s.listitem false), [])
    else if action = some "download" then
      match params "id" with
      | some subtitle_id =>
        if subtitle_id ≠ "" then
          let dl := download_subtitle temp subtitle_id transportRaw
          (dl.1.map
            (fun p => HostCall.addDirectoryItem handle p { label := p } false),
           dl.2)
        else ([], [])
      | none => ([], [])
    else if action = some "manualsearch" then ([], [])
    else ([], [])
  (branch.1 ++ [HostCall.endOfDirectory handle], branch.2)

/-! ### Shared helper lemmas and concrete fixtures -/

/-- A concrete candidate record, the spec §8 end-to-end example. -/
def r42 : RawResult :=
  { id := some "42"
    title_name := some "Inception"
    title_name_spa := some "Origen"
    year := some "2010"
    rating := some 8
    type := some "movie" }

lemma rating5_eq_floor_of_nonneg (r : ℚ) (hr : 0 ≤ r) :
    rating5 r = ⌊min 5 (r / 2)⌋ := by
  have h0 : (0 : ℚ) ≤ min 5 (r / 2) :=
    le_min (by norm_num) (div_nonneg hr (by norm_num))
  unfold rating5 pyInt
  rw [if_pos h0]

lemma countP_isEnd_addItems (handle : Int) (l : List SubtitleEntry) :
    (l.map fun s => HostCall.addDirectoryItem handle s.url s.listitem false).countP
      HostCall.isEnd = 0 := by
  induction l with
  | nil => rfl
  | cons a t ih => simp [List.countP_cons, HostCall.isEnd, ih]

lemma countP_isEnd_addPaths (handle : Int) (l : List String) :
    (l.map fun p => HostCall.addDirectoryItem handle p { label := p } false).countP
      HostCall.isEnd = 0 := by
  induction l with
  | nil => rfl
  | cons a t ih => simp [List.countP_cons, HostCall.isEnd, ih]

/-! ### Claims -/

/-- C1 (counterexample): the mapper truncates toward zero rather than
flooring, so at rating `-1` the code yields `0` while
`floor(min(5, -1/2)) = -1`. -/
theorem rating5_not_floor_at_neg_one :
    rating5 (-1) ≠ ⌊min 5 ((-1 : ℚ) / 2)⌋ := by
  have h1 : rating5 (-1) = 0 := by norm_num [rating5, pyInt]
  have h2 : (⌊min 5 ((-1 : ℚ) / 2)⌋ : ℤ) = -1 := by norm_num
  rw [h1, h2]
  decide

/-- C1 (amended): the mapper computes `stars = int(min(5, r/2))`,
truncation toward zero, which agrees with `floor(min(5, r/2))` for every
nonnegative rating (so in particular on the assumed 0-10 scale, where the
result lies in [0,5]); `stars(10) = 5`, `stars(0) = 0`, `stars(7) = 3`. -/
theorem rating5_floor_on_nonneg :
    (∀ r : ℚ, 0 ≤ r → rating5 r = ⌊min 5 (r / 2)⌋) ∧
    (∀ r : ℚ, 0 ≤ r → r ≤ 10 → 0 ≤ rating5 r ∧ rating5 r ≤ 5) ∧
    rating5 10 = 5 ∧ rating5 0 = 0 ∧ rating5 7 = 3 := by
  refine ⟨rating5_eq_floor_of_nonneg, ?_, by norm_num [rating5, pyInt],
    by norm_num [rating5, pyInt], by norm_num [rating5, pyInt]⟩
  intro r h0 _h10
  have hmin : (0 : ℚ) ≤ min 5 (r / 2) :=
    le_min (by norm_num) (div_nonneg h0 (by norm_num))
  rw [rating5_eq_floor_of_nonneg r h0]
  constructor
  · exact Int.le_floor.mpr (by exact_mod_cast hmin)
  · calc ⌊min 5 (r / 2)⌋ ≤ ⌊(5 : ℚ)⌋ := Int.floor_mono (min_le_left _ _)
      _ = 5 := by norm_num

/-- C1 (witness): the amended statement at the concrete rating 7. -/
theorem rating5_floor_on_nonneg_witness :
    rating5 7 = ⌊min 5 ((7 : ℚ) / 2)⌋ ∧ 0 ≤ rating5 7 ∧ rating5 7 ≤ 5 :=
  ⟨rating5_floor_on_nonneg.1 7 (by norm_num),
   rating5_floor_on_nonneg.2.1 7 (by norm_num) (by norm_num)⟩

/-- C3: if the remote download call succeeds with body `B`,
`download_subtitle` returns exactly the path
`{scratchDir}/subtis_{id}.srt` (a path containing the id) and writes
exactly one file, that path with contents `B` in full. -/
theorem download_subtitle_success :
    ∀ temp subtitle_id transportRaw body,
      transportRaw (SUBTIS_API_BASE ++ "/subtitle/link/" ++ subtitle_id) = some body →
      download_subtitle temp subtitle_id transportRaw =
        ([ospath_join temp ("subtis_" ++ subtitle_id ++ ".srt")],
         [(ospath_join temp ("subtis_" ++ subtitle_id ++ ".srt"), body)]) ∧
      ∃ pre post,
        ospath_join temp ("subtis_" ++ subtitle_id ++ ".srt") =
          pre ++ subtitle_id ++ post := by
  intro temp subtitle_id transportRaw body h
  constructor
  · simp [download_subtitle, h]
  · unfold ospath_join
    split_ifs with h1 h2
    · exact ⟨"subtis_", ".srt", rfl⟩
    · exact ⟨temp ++ "subtis_", ".srt", by simp only [String.append_assoc]⟩
    · exact ⟨temp ++ "/" ++ "subtis_", ".srt", by simp only [String.append_assoc]⟩

/-- C3 (witness): a concrete successful download. -/
theorem download_subtitle_success_witness :
    download_subtitle "/profile/temp/" "42" (fun _ => some "1\n00:00 Hola") =
      (["/profile/temp/subtis_42.srt"],
       [("/profile/temp/subtis_42.srt", "1\n00:00 Hola")]) ∧
    ∃ pre post, "/profile/temp/subtis_42.srt" = pre ++ "42" ++ post := by
  have h := download_subtitle_success "/profile/temp/" "42"
    (fun _ => some "1\n00:00 Hola") "1\n00:00 Hola" rfl
  have he : ospath_join "/profile/temp/" ("subtis_" ++ "42" ++ ".srt") =
      "/profile/temp/subtis_42.srt" := by decide
  rw [he] at h
  exact h

/-- C4: if the remote download call fails, `download_subtitle` returns an
empty result and writes no file at all for that id. -/
theorem download_subtitle_failure :
    ∀ temp subtitle_id transportRaw,
      transportRaw (SUBTIS_API_BASE ++ "/subtitle/link/" ++ subtitle_id) = none →
      download_subtitle temp subtitle_id transportRaw = ([], []) := by
  intro temp subtitle_id transportRaw h
  simp [download_subtitle, h]

/-- C4 (witness): a concrete failing download. -/
theorem download_subtitle_failure_witness :
    download_subtitle "/profile/temp/" "42" (fun _ => none) = ([], []) :=
  download_subtitle_failure "/profile/temp/" "42" (fun _ => none) rfl

/-- C6: for every candidate with an identifier, the entry's navigable
action URL is exactly the template
`plugin://{addon-id}/?action=download&id={identifier}`. -/
theorem toEntry_url_template :
    ∀ scriptid r s, r.id = some s →
      (toEntry scriptid r).url =
        "plugin://" ++ scriptid ++ "/?action=download&id=" ++ s := by
  intro scriptid r s h
  simp [toEntry, pyShow, h]

/-- C6 (witness): the URL of the concrete candidate with id 42. -/
theorem toEntry_url_template_witness :
    (toEntry "plugin.service.subtis" r42).url =
      "plugin://plugin.service.subtis/?action=download&id=42" :=
  toEntry_url_template "plugin.service.subtis" r42 "42" rfl

/-- C9: `make_request` never raises (it is a total function into an
optional result): on an HTTPError (non-2xx status), a URLError (network
failure) or any other exception it returns `none`, and on a 2xx response
it returns whatever `json.loads` gives - `none` for a malformed body,
the decoded value otherwise. -/
theorem make_request_absent_or_decoded :
    ∀ (α : Type) (transport : String → TransportResult)
      (decode : String → Option α) (url : String),
      (∀ code reason, transport url = .httpError code reason →
        (make_request transport decode url).1 = none) ∧
      (∀ reason, transport url = .urlError reason →
        (make_request transport decode url).1 = none) ∧
      (∀ msg, transport url = .otherError msg →
        (make_request transport decode url).1 = none) ∧
      (∀ body, transport url = .success body →
        (make_request transport decode url).1 = decode body) := by
  intro α transport decode url
  refine ⟨?_, ?_, ?_, ?_⟩
  · intro code reason h; simp [make_request, h]
  · intro reason h; simp [make_request, h]
  · intro msg h; simp [make_request, h]
  · intro body h; simp [make_request, h]

/-- C9 (witness): a concrete network failure yields `none`; a concrete
2xx response yields the decoded body. -/
theorem make_request_absent_or_decoded_witness :
    (make_request (fun _ => TransportResult.urlError "timed out")
      (fun _ => (none : Option SearchResponse)) "https://api.subt.is/v1/x").1 = none ∧
    (make_request (fun _ => TransportResult.success "{}")
      (fun _ => (some { results := none } : Option SearchResponse))
      "https://api.subt.is/v1/x").1 = some { results := none } :=
  ⟨(make_request_absent_or_decoded SearchResponse _ _ _).2.1 "timed out" rfl,
   (make_request_absent_or_decoded SearchResponse _ _ _).2.2.2 "{}" rfl⟩

/-- C2: `search_subtitles` returns an empty sequence when the title is
blank (and then requests no URL at all), when the HTTP call yields no
decoded response, and when the decoded response has no results array. -/
theorem search_subtitles_empty_cases :
    (∀ scriptid item transport decode, item.title.getD "" = "" →
      search_subtitles scriptid item transport decode = ([], [])) ∧
    (∀ scriptid item transport decode,
      (make_request transport decode (search_url (item.title.getD ""))).1 = none →
      (search_subtitles scriptid item transport decode).1 = []) ∧
    (∀ scriptid item transport decode rd,
      (make_request transport decode (search_url (item.title.getD ""))).1 = some rd →
      rd.results = none →
      (search_subtitles scriptid item transport decode).1 = []) := by
  refine ⟨?_, ?_, ?_⟩
  · intro scriptid item transport decode h
    simp [search_subtitles, h]
  · intro scriptid item transport decode h
    by_cases ht : item.title.getD "" = ""
    · simp [search_subtitles, ht]
    · simp [search_subtitles, ht, h]
  · intro scriptid item transport decode rd h hres
    by_cases ht : item.title.getD "" = ""
    · simp [search_subtitles, ht]
    · simp [search_subtitles, ht, h, hres]

/-- C2 (witness): a blank-title search returns no entries and makes no
network request; a search whose transport fails returns no entries. -/
theorem search_subtitles_empty_cases_witness :
    search_subtitles "plugin.service.subtis" { title := some "" }
      (fun _ => TransportResult.success "{}") (fun _ => some { results := some [r42] }) =
      ([], []) ∧
    (search_subtitles "plugin.service.subtis" { title := some "Inception" }
      (fun _ => TransportResult.urlError "timed out")
      (fun _ => some { results := some [r42] })).1 = [] :=
  ⟨search_subtitles_empty_cases.1 "plugin.service.subtis" { title := some "" }
      (fun _ => TransportResult.success "{}") (fun _ => some { results := some [r42] }) rfl,
   search_subtitles_empty_cases.2.1 "plugin.service.subtis" { title := some "Inception" }
      (fun _ => TransportResult.urlError "timed out")
      (fun _ => some { results := some [r42] }) rfl⟩

/-- C5: every run of the dispatcher emits the end-of-result-set signal
exactly once, whichever action ran and whatever the oracles returned;
and with an unrecognized action the host sees exactly that one signal
and zero registered items. -/
theorem main_end_signal :
    ∀ scriptid temp handle params player transport decode transportRaw,
      ((main' scriptid temp handle params player transport decode
          transportRaw).1.countP HostCall.isEnd = 1) ∧
      (params "action" ≠ some "search" → params "action" ≠ some "download" →
        params "action" ≠ some "manualsearch" →
        (main' scriptid temp handle params player transport decode transportRaw).1 =
          [HostCall.endOfDirectory handle]) := by
  intro scriptid temp handle params player transport decode transportRaw
  constructor
  · unfold main'
    by_cases h1 : params "action" = some "search"
    · simp [h1, List.countP_append, List.countP_cons, HostCall.isEnd,
        countP_isEnd_addItems]
    · by_cases h2 : params "action" = some "download"
      · rcases hid : params "id" with _ | sid
        · simp [h1, h2, hid, List.countP_append, List.countP_cons, HostCall.isEnd]
        · by_cases h3 : sid = ""
          · simp [h1, h2, hid, h3, List.countP_append, List.countP_cons,
              HostCall.isEnd]
          · simp [h1, h2, hid, h3, List.countP_append, List.countP_cons,
              HostCall.isEnd, countP_isEnd_addPaths]
      · by_cases h3 : params "action" = some "manualsearch" <;>
          simp [h1, h2, h3, List.countP_append, List.countP_cons, HostCall.isEnd]
  · intro h1 h2 h3
    simp [main', h1, h2, h3]

/-- C5 (witness): a concrete run with the unrecognized action `bogus`
emits exactly the single end-of-result-set call and registers nothing. -/
theorem main_end_signal_witness :
    (( main' "plugin.service.subtis" "/profile/temp/" 7 (fun _ => some "bogus") {}
        (fun _ => TransportResult.urlError "down") (fun _ => none)
        (fun _ => none)).1.countP HostCall.isEnd = 1) ∧
    ( main' "plugin.service.subtis" "/profile/temp/" 7 (fun _ => some "bogus") {}
        (fun _ => TransportResult.urlError "down") (fun _ => none)
        (fun _ => none)).1 = [HostCall.endOfDirectory 7] :=
  ⟨(main_end_signal "plugin.service.subtis" "/profile/temp/" 7 (fun _ => some "bogus") {}
      (fun _ => TransportResult.urlError "down") (fun _ => none) (fun _ => none)).1,
   (main_end_signal "plugin.service.subtis" "/profile/temp/" 7 (fun _ => some "bogus") {}
      (fun _ => TransportResult.urlError "down") (fun _ => none) (fun _ => none)).2
      (by decide) (by decide) (by decide)⟩

/-- C7: when the decoded response carries a results array, the returned
entries are exactly the image of that array under the per-candidate
mapper, in the same order - one entry per candidate, none merged,
dropped or re-sorted. -/
theorem search_subtitles_one_to_one :
    ∀ scriptid item transport decode rd rs,
      item.title.getD "" ≠ "" →
      (make_request transport decode (search_url (item.title.getD ""))).1 = some rd →
      rd.results = some rs →
      (search_subtitles scriptid item transport decode).1 =
        rs.map (toEntry scriptid) ∧
      (search_subtitles scriptid item transport decode).1.length = rs.length := by
  intro scriptid item transport decode rd rs ht hreq hres
  have hmain : (search_subtitles scriptid item transport decode).1 =
      rs.map (toEntry scriptid) := by
    by_cases hnil : rs = []
    · subst hnil
      simp [search_subtitles, ht, hreq, hres]
    · simp [search_subtitles, ht, hreq, hres, hnil]
  exact ⟨hmain, by rw [hmain, List.length_map]⟩

/-- C7 (witness): the spec §8 end-to-end example, one candidate mapped
to exactly one entry. -/
theorem search_subtitles_one_to_one_witness :
    (search_subtitles "plugin.service.subtis" { title := some "Inception" }
        (fun _ => TransportResult.success "body")
        (fun _ => some { total := some 1, results := some [r42] })).1 =
      [r42].map (toEntry "plugin.service.subtis") ∧
    (search_subtitles "plugin.service.subtis" { title := some "Inception" }
        (fun _ => TransportResult.success "body")
        (fun _ => some { total := some 1, results := some [r42] })).1.length =
      [r42].length :=
  search_subtitles_one_to_one "plugin.service.subtis" { title := some "Inception" }
    (fun _ => TransportResult.success "body")
    (fun _ => some { total := some 1, results := some [r42] })
    { total := some 1, results := some [r42] } [r42] (by decide) rfl rfl

/-- C8: every mapped entry has primary label fixed to "Spanish", both
the synced and hearing-impaired properties set to the string "false",
and secondary label `{display name} ({year})` where the display name is
the Spanish title when present and non-empty and the original title
otherwise. -/
theorem toEntry_labels_flags :
    ∀ scriptid r,
      (toEntry scriptid r).listitem.label = "Spanish" ∧
      (toEntry scriptid r).listitem.sync = "false" ∧
      (toEntry scriptid r).listitem.hearing_imp = "false" ∧
      (toEntry scriptid r).listitem.label2 =
        display_name r ++ " (" ++ r.year.getD "" ++ ")" ∧
      (∀ s, r.title_name_spa = some s → s ≠ "" → display_name r = s) ∧
      (r.title_name_spa = none → display_name r = r.title_name.getD "Unknown") ∧
      (r.title_name_spa = some "" → display_name r = r.title_name.getD "Unknown") := by
  intro scriptid r
  refine ⟨rfl, rfl, rfl, rfl, ?_, ?_, ?_⟩
  · intro s hs hne
    simp [display_name, hs, hne]
  · intro h
    simp [display_name, h, ite_self]
  · intro h
    simp [display_name, h]

/-- C8 (witness): the concrete candidate of the spec §8 example. -/
theorem toEntry_labels_flags_witness :
    (toEntry "plugin.service.subtis" r42).listitem.label = "Spanish" ∧
    (toEntry "plugin.service.subtis" r42).listitem.sync = "false" ∧
    (toEntry "plugin.service.subtis" r42).listitem.hearing_imp = "false" ∧
    display_name r42 = "Origen" :=
  ⟨(toEntry_labels_flags "plugin.service.subtis" r42).1,
   (toEntry_labels_flags "plugin.service.subtis" r42).2.1,
   (toEntry_labels_flags "plugin.service.subtis" r42).2.2.1,
   (toEntry_labels_flags "plugin.service.subtis" r42).2.2.2.2.1 "Origen" rfl (by decide)⟩

/-- C10: the mapper is total over arbitrary candidate records: an absent
id still yields exactly one entry whose action URL carries `id=None`, an
absent rating defaults to 0 (icon "0"), absent titles default to
"Unknown", an absent year renders as the empty string, and mapping never
drops a candidate. -/
theorem toEntry_total_defaults :
    ∀ scriptid (r : RawResult),
      (r.id = none → (toEntry scriptid r).url =
        "plugin://" ++ scriptid ++ "/?action=download&id=" ++ "None") ∧
      (r.rating = none → (toEntry scriptid r).listitem.icon = "0") ∧
      (r.title_name = none → r.title_name_spa = none →
        (toEntry scriptid r).listitem.label2 = "Unknown (" ++ r.year.getD "" ++ ")") ∧
      (r.year = none →
        (toEntry scriptid r).listitem.label2 = display_name r ++ " ()") ∧
      (∀ rs : List RawResult, (rs.map (toEntry scriptid)).length = rs.length) := by
  intro scriptid r
  refine ⟨?_, ?_, ?_, ?_, fun rs => List.length_map _ _⟩
  · intro h
    simp [toEntry, pyShow, h]
  · intro h
    have h0 : rating5 0 = 0 := by norm_num [rating5, pyInt]
    simp [toEntry, h, h0]
    rfl
  · intro h1 h2
    have hd : display_name r = "Unknown" := by simp [display_name, h1, h2]
    show display_name r ++ " (" ++ r.year.getD "" ++ ")" = _
    rw [hd]
    rfl
  · intro h
    show display_name r ++ " (" ++ r.year.getD "" ++ ")" = _
    rw [h]
    show display_name r ++ " (" ++ "" ++ ")" = _
    rw [String.append_assoc (display_name r ++ " (") "" ")"]
    rw [String.append_assoc (display_name r) " (" ("" ++ ")")]
    rfl

/-- C10 (witness): the all-fields-absent record maps to one entry with
`id=None` in its URL, icon "0" and label2 "Unknown ()". -/
theorem toEntry_total_defaults_witness :
    (toEntry "plugin.service.subtis"
        { id := none, title_name := none, title_name_spa := none,
          year := none, rating := none }).url =
      "plugin://" ++ "plugin.service.subtis" ++ "/?action=download&id=" ++ "None" ∧
    (toEntry "plugin.service.subtis"
        { id := none, title_name := none, title_name_spa := none,
          year := none, rating := none }).listitem.icon = "0" :=
  ⟨(toEntry_total_defaults "plugin.service.subtis"
      { id := none, title_name := none, title_name_spa := none,
        year := none, rating := none }).1 rfl,
   (toEntry_total_defaults "plugin.service.subtis"
      { id := none, title_name := none, title_name_spa := none,
        year := none, rating := none }).2.1 rfl⟩
